import Mathlib

/-
Verification of the leanstore buffer manager core
(src/backend/leanstore/storage/buffer-manager/BufferManager.cpp and
src/backend/leanstore/storage/buffer-manager/FreeList.cpp).

The embedding is sequential: each public operation is a pure function on an
explicit buffer-manager state.  Optimistic-latch rechecks always succeed in a
single-threaded execution, mutex acquisition never blocks, and the Treiber
stack CAS of the free list always succeeds; the Restart control signal
(RestartException / jumpmu jump) is modelled as a distinguished result
variant.  Machine counters are modelled as Nat; the source only ever
increments them or decrements positive values.
-/

namespace LeanStore

/-- The three buffer-frame states of BufferFrame.hpp (spec section 3). -/
inductive FrameState
  | FREE
  | HOT
  | COLD
deriving DecidableEq

/-- A page image: its LSN, the optional debugging magic number, and the rest
of the payload bytes (kept abstract as a list of bytes). -/
structure Page where
  LSN : Nat := 0
  magic_debugging_number : Nat := 0
  payload : List Nat := []
deriving DecidableEq

/-- Modelled from the spec: BufferFrame.hpp is not among the given sources;
the header fields and their FREE defaults follow spec section 3.  The
next_free_bf pointer is an optional frame index. -/
structure Header where
  state : FrameState := .FREE
  pid : Nat := 0
  lock : Nat := 0
  isWB : Bool := false
  isCooledBecauseOfReading : Bool := false
  lastWrittenLSN : Nat := 0
  nextFree : Option Nat := none
deriving DecidableEq

/-- The header value produced by the default Header constructor,
as placement-new uses it in pageProviderThread. -/
def Header.init : Header := {}

/-- A buffer frame: header plus page image. -/
structure BufferFrame where
  header : Header := {}
  page : Page := {}
deriving DecidableEq

/-- The frame value produced by the default BufferFrame constructor. -/
def BufferFrame.init : BufferFrame := {}

/-- Modelled from the spec: BufferFrame::isDirty is declared in the missing
BufferFrame.hpp header; per spec sections 4.5.2 and the glossary, clean means
last_written_lsn == page.LSN and dirty is its negation. -/
def BufferFrame.isDirty (bf : BufferFrame) : Bool :=
  bf.header.lastWrittenLSN != bf.page.LSN

/-- Modelled from the spec: the optimistic-lock header is not among the given
sources.  BufferManager.cpp writes lock = 2 with the comment "Write lock", so
a latch word with bit 1 set is exclusively (write-) locked. -/
def isWriteLatched (l : Nat) : Bool := l.testBit 1

/-- CIOFrame states (spec section 3). -/
inductive CIOState
  | READING
  | COOLING
deriving DecidableEq

/-- Cooling/reading metadata keyed by PID.  fifo_itr is modelled as the frame
index of the cooling-queue entry it designates (each resident frame occurs at
most once in the queue). -/
structure CIOFrame where
  state : CIOState := .READING
  fifoItr : Nat := 0
  mutexLocked : Bool := false
  readers_counter : Nat := 0
deriving DecidableEq

/-- Association-list model of the partition hash table from PID to CIOFrame. -/
def htLookup : List (Nat × CIOFrame) → Nat → Option CIOFrame
  | [], _ => none
  | (p, c) :: rest, pid => if p = pid then some c else htLookup rest pid

/-- Remove the (first) entry keyed pid from the hash table. -/
def htRemove : List (Nat × CIOFrame) → Nat → List (Nat × CIOFrame)
  | [], _ => []
  | (p, c) :: rest, pid => if p = pid then rest else (p, c) :: htRemove rest pid

/-- Replace the value stored under pid (no effect when the key is absent). -/
def htUpdate : List (Nat × CIOFrame) → Nat → CIOFrame → List (Nat × CIOFrame)
  | [], _, _ => []
  | (p, c) :: rest, pid, c2 =>
      if p = pid then (p, c2) :: rest else (p, c) :: htUpdate rest pid c2

/-- The buffer-manager state: the frame arena (indexed by frame number), the
free list with its approximate counter, the single partition (cooling queue
and hash table, spec section 4.3), the cooling counter, the next-pid counter
ssd_used_pages_counter, and the disk image (indexed by PID). -/
structure BMState where
  frames : List BufferFrame := []
  freeList : List Nat := []
  freeCounter : Nat := 0
  coolingQueue : List Nat := []
  ht : List (Nat × CIOFrame) := []
  coolingCounter : Nat := 0
  ssdUsedPagesCounter : Nat := 0
  disk : List Page := []
deriving DecidableEq

/-- FreeList::push (FreeList.cpp lines 13-21): thread the frame through
next_free_bf onto the head of the stack and bump the counter.  The CAS loop
succeeds at once in the sequential model. -/
def FreeList.push (s : BMState) (i : Nat) : BMState :=
  let bf := s.frames.getD i {}
  { s with
      frames := s.frames.set i
        { bf with header := { bf.header with nextFree := s.freeList.head? } },
      freeList := i :: s.freeList,
      freeCounter := s.freeCounter + 1 }

/-- FreeList::pop (FreeList.cpp lines 46-72): on an empty list the source
jumps (Restart), modelled as none with the state untouched; otherwise detach
the head, null its next_free_bf, and decrement the counter. -/
def FreeList.pop (s : BMState) : Option (BMState × Nat) :=
  match s.freeList with
  | [] => none
  | i :: rest =>
      let bf := s.frames.getD i {}
      some
        ({ s with
            frames := s.frames.set i
              { bf with header := { bf.header with nextFree := none } },
            freeList := rest,
            freeCounter := s.freeCounter - 1 }, i)

/-- Result of BufferManager::allocatePage: either a state together with the
index of the returned frame, or a Restart carrying the state as left behind
by the aborted call. -/
inductive AllocOut
  | ok (s : BMState) (bf : Nat)
  | restart (s : BMState)
deriving DecidableEq

/-- BufferManager::allocatePage (BufferManager.cpp lines 328-344).  Note the
source increments ssd_used_pages_counter before popping the free list, and
the pop itself signals Restart when the list is empty. -/
def allocatePage (s : BMState) : AllocOut :=
  if s.freeCounter < 10 then .restart s
  else
    let free_pid := s.ssdUsedPagesCounter
    let s1 := { s with ssdUsedPagesCounter := s.ssdUsedPagesCounter + 1 }
    match FreeList.pop s1 with
    | none => .restart s1
    | some (s2, i) =>
        let bf := s2.frames.getD i {}
        let bf2 : BufferFrame :=
          { bf with
              header := { bf.header with
                lock := 2, pid := free_pid, state := .HOT, lastWrittenLSN := 0 },
              page := { bf.page with LSN := 0 } }
        .ok { s2 with frames := s2.frames.set i bf2 } i

-- ---------------------------------------------------------------------------
-- Concrete states used by witness instantiations
-- ---------------------------------------------------------------------------

/-- A swip: a tagged word holding either a resident-frame index (swizzled)
or a page identifier (unswizzled).  Spec section 3. -/
inductive Swip
  | swizzled (bf : Nat)
  | unswizzled (pid : Nat)
deriving DecidableEq

/-- Swip::isSwizzled. -/
def Swip.isSwizzled : Swip → Bool
  | .swizzled _ => true
  | .unswizzled _ => false

/-- Observable mutation events, logged in source order by the operations
below.  They make the cross-thread ordering guarantees of spec section 5
statable: in resolveSwip Case C the swizzle of the parent swip (line 437)
precedes setting the frame state to HOT (line 441); the page provider logs
the frame value it holds at the moment it reclaims or queues a frame. -/
inductive Event
  | swizzleSwip (bf : Nat)
  | eraseCooling (bf : Nat)
  | setStateHot (bf : Nat)
  | scannedP2 (i : Nat)
  | evictedP2 (i : Nat) (bf : BufferFrame)
  | queuedWrite (i : Nat) (bf : BufferFrame)
  | appliedLSN (i : Nat) (lsn : Nat)
  | evictedP3 (i : Nat) (bf : BufferFrame) (lsn : Nat)
deriving DecidableEq

/-- Result of BufferManager::resolveSwip: either the resident frame together
with the state, the (possibly re-swizzled) swip and the event log, or a
Restart carrying the state as left behind. -/
inductive ResolveOut
  | ret (s : BMState) (w : Swip) (bf : Nat) (tr : List Event)
  | restart (s : BMState) (w : Swip) (tr : List Event)
deriving DecidableEq

/-- BufferManager::resolveSwip (BufferManager.cpp lines 353-461), sequential
semantics: guard rechecks succeed, the partition mutex is free, and blocking
on a CIOFrame mutex of a concurrent reader is elided (Case B nets out to the
readers_counter round trip).  Straight-line field mutations are collapsed
into the final record; comments give the source lines. -/
def resolveSwip (s : BMState) (w : Swip) : ResolveOut :=
  match w with
  | .swizzled bf =>
      -- lines 358-362: fast path, recheck and return the resident frame
      .ret s w bf []
  | .unswizzled pid =>
      match htLookup s.ht pid with
      | none =>
          -- Case A, lines 371-410: miss
          if s.freeCounter < 10 then
            -- lines 372-375: near-empty free list, restart
            .restart s w []
          else
            match FreeList.pop s with
            | none =>
                -- pop on a drained list jumps (Restart), nothing changed yet
                .restart s w []
            | some (s1, i) =>
                -- line 380: bf.header.lock = 2, released again at line 404
                let pg := s1.disk.getD pid {}
                let bf0 := s1.frames.getD i {}
                -- lines 388-405: read the page, fill the header, cool
                let bf1 : BufferFrame :=
                  { header := { bf0.header with
                      lock := 0,
                      lastWrittenLSN := pg.LSN,
                      state := .COLD,
                      isWB := false,
                      pid := pid,
                      isCooledBecauseOfReading := true },
                    page := pg }
                -- lines 378-408: CIOFrame inserted READING with the mutex
                -- held, promoted to COOLING, mutex released at line 408
                let cio : CIOFrame :=
                  { state := .COOLING, fifoItr := i,
                    mutexLocked := false, readers_counter := 1 }
                .restart
                  { s1 with
                      frames := s1.frames.set i bf1,
                      ht := (pid, cio) :: s1.ht,
                      coolingQueue := s1.coolingQueue ++ [i],
                      coolingCounter := s1.coolingCounter + 1 }
                  w []
      | some cio =>
          match cio.state with
          | .READING =>
              -- Case B, lines 415-430: readers_counter++ then, once the
              -- loading thread releases the CIOFrame mutex, fetch_add(-1);
              -- the entry is removed when the count returns to zero
              if cio.readers_counter = 0 then
                .restart { s with ht := htRemove s.ht pid } w []
              else
                .restart s w []
          | .COOLING =>
              -- Case C, lines 433-457
              let bf := cio.fifoItr
              let bfv := s.frames.getD bf {}
              -- line 437: swizzle, line 438: erase from the cooling queue,
              -- line 439: cooling_bfs_counter--, line 441: state = HOT
              let bfv1 : BufferFrame :=
                { bfv with header := { bfv.header with state := .HOT } }
              -- lines 444-453: clean up the CIOFrame unless readers remain
              let should_clean :=
                !(bfv.header.isCooledBecauseOfReading && cio.readers_counter > 1)
              let ht1 :=
                if bfv.header.isCooledBecauseOfReading then
                  htUpdate s.ht pid
                    { cio with readers_counter := cio.readers_counter - 1 }
                else s.ht
              let ht2 := if should_clean then htRemove ht1 pid else ht1
              .ret
                { s with
                    frames := s.frames.set bf bfv1,
                    coolingQueue := s.coolingQueue.erase bf,
                    coolingCounter := s.coolingCounter - 1,
                    ht := ht2 }
                (.swizzled bf) bf
                [.swizzleSwip bf, .eraseCooling bf, .setStateHot bf]

/-- A ten-frame pool with every frame on the free list. -/
def allocDemoState : BMState :=
  { frames := List.replicate 10 {},
    freeList := [0, 1, 2, 3, 4, 5, 6, 7, 8, 9],
    freeCounter := 10 }

/-- The state produced by a successful allocatePage on allocDemoState. -/
def allocDemoRes : BMState :=
  match allocatePage allocDemoState with
  | .ok s _ => s
  | .restart s => s

/-- Modelled from the spec: AsyncWriteBuffer.cpp is not among the given
sources.  Per spec section 4.4 it accepts up to batch_max outstanding
flushes; add returns false when saturated, otherwise copies the page payload
into a staging slot, recording the LSN observed at copy time. -/
structure AsyncWriteBuffer where
  batch_max : Nat := 0
  pending : List (Nat × Page) := []
deriving DecidableEq

/-- Modelled from the spec: AsyncWriteBuffer::add.  none signals saturation;
the caller sets is_wb on the frame when add succeeds. -/
def AsyncWriteBuffer.add (awb : AsyncWriteBuffer) (i : Nat) (pg : Page) :
    Option AsyncWriteBuffer :=
  if awb.pending.length < awb.batch_max then
    some { awb with pending := awb.pending ++ [(i, pg)] }
  else none

/-- The page-provider loop state: the buffer manager, the thread-local
AsyncWriteBuffer, and the event log. -/
structure PP where
  bm : BMState
  awb : AsyncWriteBuffer
  tr : List Event
deriving DecidableEq

/-- One cooling-queue entry of the Phase-2 scan (BufferManager.cpp lines
184-214): skip the frame when is_wb or is_cooled_because_of_reading is set;
reclaim it when clean (erase the queue entry, remove the hash-table entry,
placement-new the header only, push onto the free list, decrement
cooling_bfs_counter); otherwise try to enqueue it into the AsyncWriteBuffer,
skipping on saturation.  The evictedP2 and queuedWrite events record the
frame value at the decision. -/
def phase2Entry (p : PP) (i : Nat) : PP :=
  let bf := p.bm.frames.getD i {}
  let pid := bf.header.pid
  if !bf.header.isWB && !bf.header.isCooledBecauseOfReading then
    if !bf.isDirty then
      -- lines 196-203: reclaim the buffer frame
      let bm1 := { p.bm with
        coolingQueue := p.bm.coolingQueue.erase i,
        ht := htRemove p.bm.ht pid }
      let bm2 := { bm1 with
        frames := bm1.frames.set i { bf with header := Header.init } }
      let bm3 := FreeList.push bm2 i
      let bm4 := { bm3 with coolingCounter := bm3.coolingCounter - 1 }
      { p with bm := bm4, tr := p.tr ++ [.evictedP2 i bf] }
    else
      -- lines 205-210: async_write_buffer.add(bf)
      match p.awb.add i bf.page with
      | some awb2 =>
          { bm := { p.bm with
              frames := p.bm.frames.set i
                { bf with header := { bf.header with isWB := true } } },
            awb := awb2,
            tr := p.tr ++ [.queuedWrite i bf] }
      | none => p
  else p

/-- The Phase-2 scan over the cooling queue, bounded by the remaining page
budget (pages_left_to_process, decremented at every examined entry). -/
def phase2Scan : PP → Nat → List Nat → PP
  | p, 0, _ => p
  | p, _ + 1, [] => p
  | p, b + 1, i :: rest =>
      phase2Scan (phase2Entry { p with tr := p.tr ++ [Event.scannedP2 i] } i) b rest

/-- Phase 2 of BufferManager::pageProviderThread (lines 177-216): when the
free counter is below free_pages_limit, scan the cooling queue from the
front with budget free_pages_limit - counter. -/
def pageProviderPhase2 (p : PP) (free_pages_limit : Nat) : PP :=
  if p.bm.freeCounter < free_pages_limit then
    phase2Scan p (free_pages_limit - p.bm.freeCounter) p.bm.coolingQueue
  else p

/-- One Phase-2 queue entry as the spec words it (section 4.5.2): for each
frame whose is_wb is false and is_cooled_because_of_reading is false, if
clean (last_written_lsn == page.LSN) remove the CIOFrame and the queue
entry, reinitialize the header, push onto the FreeList and decrement
cooling_count; if dirty, try to enqueue into the AsyncWriteBuffer and skip
on saturation.  Written from the spec text for comparison with
phase2Entry. -/
def phase2SpecStep (bm : BMState) (awb : AsyncWriteBuffer) (i : Nat) :
    BMState × AsyncWriteBuffer :=
  let bf := bm.frames.getD i {}
  if bf.header.isWB || bf.header.isCooledBecauseOfReading then (bm, awb)
  else if bf.header.lastWrittenLSN == bf.page.LSN then
    let bm1 := { bm with
      ht := htRemove bm.ht bf.header.pid,
      coolingQueue := bm.coolingQueue.erase i }
    let bm2 := { bm1 with
      frames := bm1.frames.set i { bf with header := Header.init } }
    let bm3 := FreeList.push bm2 i
    ({ bm3 with coolingCounter := bm3.coolingCounter - 1 }, awb)
  else
    match awb.add i bf.page with
    | some awb2 =>
        ({ bm with
            frames := bm.frames.set i
              { bf with header := { bf.header with isWB := true } } }, awb2)
    | none => (bm, awb)

/-- The Phase-2 scan as the spec words it: up to the given number of frames
from the front of the queue. -/
def phase2SpecScan : BMState × AsyncWriteBuffer → Nat → List Nat →
    BMState × AsyncWriteBuffer
  | q, 0, _ => q
  | q, _ + 1, [] => q
  | q, b + 1, i :: rest => phase2SpecScan (phase2SpecStep q.1 q.2 i) b rest

/-- Phase 2 as the spec words it: scan the cooling queue from the front up
to free_pages_limit - free_count frames (truncated subtraction). -/
def pageProviderPhase2Spec (bm : BMState) (awb : AsyncWriteBuffer)
    (free_pages_limit : Nat) : BMState × AsyncWriteBuffer :=
  phase2SpecScan (bm, awb) (free_pages_limit - bm.freeCounter) bm.coolingQueue

/-- Phase-3 handling of one completed flush (BufferManager.cpp lines
224-256): apply the written LSN as last_written_lsn and clear is_wb; then,
if the frame is still COLD, erase its cooling-queue entry, remove the
hash-table entry, placement-new the whole frame, push it onto the free list
and decrement cooling_bfs_counter.  The evictedP3 event records the frame
value at the eviction decision together with the written LSN. -/
def phase3Write (p : PP) (i : Nat) (lsn : Nat) : PP :=
  let bf := p.bm.frames.getD i {}
  let bf1 : BufferFrame :=
    { bf with header := { bf.header with lastWrittenLSN := lsn, isWB := false } }
  let p1 : PP :=
    { p with
        bm := { p.bm with frames := p.bm.frames.set i bf1 },
        tr := p.tr ++ [.appliedLSN i lsn] }
  if bf1.header.state = .COLD then
    let pid := bf1.header.pid
    let bm1 := { p1.bm with
      coolingQueue := p1.bm.coolingQueue.erase i,
      ht := htRemove p1.bm.ht pid }
    let bm2 := { bm1 with frames := bm1.frames.set i BufferFrame.init }
    let bm3 := FreeList.push bm2 i
    let bm4 := { bm3 with coolingCounter := bm3.coolingCounter - 1 }
    { p1 with bm := bm4, tr := p1.tr ++ [.evictedP3 i bf1 lsn] }
  else p1

/-- Phase 3 over the polled completions (each a frame index paired with the
LSN recorded at copy time by the async writer). -/
def phase3Apply : PP → List (Nat × Nat) → PP
  | p, [] => p
  | p, (i, lsn) :: rest => phase3Apply (phase3Write p i lsn) rest

/-- The pread loop of BufferManager::readPageSync (lines 465-476): the list
holds the successive return values of pread; the loop subtracts each return
value from bytes_left (initially PAGE_SIZE) and keeps calling pread while
bytes_left > 0, never inspecting the return value for failure.  The result
is the list of request sizes issued (each pread is asked for bytes_left
bytes); none when the supplied return values run out with the loop still
going. -/
def preadLoop : List Int → Int → Option (List Int)
  | [], _ => none
  | r :: rest, bytes_left =>
      if bytes_left - r > 0 then
        match preadLoop rest (bytes_left - r) with
        | none => none
        | some reqs => some (bytes_left :: reqs)
      else some [bytes_left]

/-- The reclaim-event invariant of C1: a Phase-2 reclaim carries a frame
that was clean at the decision, a Phase-3 reclaim carries a frame whose
last_written_lsn is the completed flush LSN; other events are unconstrained. -/
def cleanReclaimEvent : Event → Prop
  | .evictedP2 _ bf => bf.header.lastWrittenLSN = bf.page.LSN
  | .evictedP3 _ bf lsn => bf.header.lastWrittenLSN = lsn
  | _ => True

/-- A dirty cold frame whose flush is in flight (is_wb set), page 0 with
LSN 9 still unpersisted. -/
def wbDemoFrame : BufferFrame :=
  { header := { state := .COLD, pid := 0, lock := 0, isWB := true,
                isCooledBecauseOfReading := false, lastWrittenLSN := 0,
                nextFree := none },
    page := { LSN := 9, magic_debugging_number := 0, payload := [4] } }

/-- A one-frame pool whose only frame is wbDemoFrame, cooling. -/
def wbDemoState : BMState :=
  { frames := [wbDemoFrame],
    coolingQueue := [0],
    ht := [(0, { state := .COOLING, fifoItr := 0, mutexLocked := false,
                 readers_counter := 0 })],
    coolingCounter := 1 }

/-- wbDemoFrame after Phase 3 applied the completed flush LSN 9 and cleared
is_wb (the value the eviction decision sees). -/
def wbDemoFrameApplied : BufferFrame :=
  { header := { state := .COLD, pid := 0, lock := 0, isWB := false,
                isCooledBecauseOfReading := false, lastWrittenLSN := 9,
                nextFree := none },
    page := { LSN := 9, magic_debugging_number := 0, payload := [4] } }

/-- A single cold resident frame holding page 7, clean, sitting in the
cooling queue with its COOLING hash-table entry. -/
def coolDemoFrame : BufferFrame :=
  { header := { state := .COLD, pid := 7, lock := 0, isWB := false,
                isCooledBecauseOfReading := false, lastWrittenLSN := 3,
                nextFree := none },
    page := { LSN := 3, magic_debugging_number := 7, payload := [1, 2] } }

/-- A one-frame pool whose only frame is cooling (Case C input). -/
def coolDemoState : BMState :=
  { frames := [coolDemoFrame],
    coolingQueue := [0],
    ht := [(7, { state := .COOLING, fifoItr := 0, mutexLocked := false,
                 readers_counter := 0 })],
    coolingCounter := 1 }

/-- The state produced by promoting the cooling frame of coolDemoState. -/
def coolDemoRes : BMState :=
  match resolveSwip coolDemoState (.unswizzled 7) with
  | .ret s _ _ _ => s
  | .restart s _ _ => s

/-- A pool with one free frame and page 1 on disk (Case A input); the
approximate free counter reads 10. -/
def missDemoState : BMState :=
  { frames := [{}],
    freeList := [0],
    freeCounter := 10,
    disk := [{}, { LSN := 9, magic_debugging_number := 1, payload := [5] }] }

/-- A state whose approximate free counter reads 10 while the free list is
actually empty (the free-list counter is approximate, spec section 4.2, so a
concurrent pop can drain the list between the counter check and the pop). -/
def pidLeakState : BMState := { freeCounter := 10 }

-- ---------------------------------------------------------------------------
-- List helpers (getD after set)
-- ---------------------------------------------------------------------------

theorem list_getD_set_self {α : Type} (l : List α) (i : Nat) (v d : α)
    (h : i < l.length) : (l.set i v).getD i d = v := by
  induction l generalizing i with
  | nil => simp at h
  | cons a t ih =>
      cases i with
      | zero => simp [List.set, List.getD]
      | succ n =>
          have hn : n < t.length := by simpa using h
          simpa [List.set, List.getD] using ih n hn

theorem list_getD_set_ne {α : Type} (l : List α) (i j : Nat) (v d : α)
    (hij : i ≠ j) : (l.set i v).getD j d = l.getD j d := by
  induction l generalizing i j with
  | nil => simp [List.set]
  | cons a t ih =>
      cases i with
      | zero =>
          cases j with
          | zero => exact absurd rfl hij
          | succ m => simp [List.set, List.getD]
      | succ n =>
          cases j with
          | zero => simp [List.set, List.getD]
          | succ m =>
              have : n ≠ m := fun h => hij (by simp [h])
              simpa [List.set, List.getD] using ih n m this

-- ---------------------------------------------------------------------------
-- C9: FreeList.pop
-- ---------------------------------------------------------------------------

/-- C9: FreeList.pop on an empty list (head null) signals Restart and removes
nothing (the none result leaves the caller with the untouched input state);
on a non-empty list it detaches and returns the head frame, whose state is
FREE (given the free-list invariant that the assert in the source checks),
and decrements the counter. -/
theorem freelist_pop_spec (s : BMState)
    (hfree : ∀ i ∈ s.freeList, (s.frames.getD i {}).header.state = .FREE) :
    (s.freeList = [] → FreeList.pop s = none) ∧
    (∀ i rest, s.freeList = i :: rest →
      ∃ s2, FreeList.pop s = some (s2, i) ∧
        s2.freeList = rest ∧
        s2.freeCounter = s.freeCounter - 1 ∧
        (s.frames.getD i {}).header.state = .FREE) := by
  constructor
  · intro h
    simp [FreeList.pop, h]
  · intro i rest h
    refine ⟨{ s with
        frames := s.frames.set i
          { s.frames.getD i {} with
            header := { (s.frames.getD i {}).header with nextFree := none } },
        freeList := rest,
        freeCounter := s.freeCounter - 1 }, ?_, rfl, rfl, ?_⟩
    · simp [FreeList.pop, h]
    · exact hfree i (by simp [h])

/-- Concrete instantiation of freelist_pop_spec. -/
theorem freelist_pop_spec_witness :
    (∃ s2, FreeList.pop { frames := [{}], freeList := [0] } = some (s2, 0) ∧
      s2.freeList = [] ∧
      s2.freeCounter = ({ frames := [{}], freeList := [0] } : BMState).freeCounter - 1 ∧
      (({ frames := [{}], freeList := [0] } : BMState).frames.getD 0 {}).header.state =
        .FREE) :=
  (freelist_pop_spec { frames := [{}], freeList := [0] } (by decide)).2 0 [] rfl

-- ---------------------------------------------------------------------------
-- C4: allocatePage success
-- ---------------------------------------------------------------------------

/-- C4: every successful allocatePage call returns a frame whose state is
HOT, whose latch is write-locked (lock = 2), whose pid is the value of
ssd_used_pages_counter before the call (the counter being incremented by
one), and whose last_written_lsn and page.LSN are both 0.  The hypothesis
hlen is the arena-pointer invariant: free-list entries index real frames. -/
theorem allocatePage_ok_spec (s s2 : BMState) (i : Nat)
    (hlen : ∀ j ∈ s.freeList, j < s.frames.length)
    (h : allocatePage s = .ok s2 i) :
    (s2.frames.getD i {}).header.state = .HOT ∧
    (s2.frames.getD i {}).header.lock = 2 ∧
    isWriteLatched (s2.frames.getD i {}).header.lock = true ∧
    (s2.frames.getD i {}).header.pid = s.ssdUsedPagesCounter ∧
    s2.ssdUsedPagesCounter = s.ssdUsedPagesCounter + 1 ∧
    (s2.frames.getD i {}).header.lastWrittenLSN = 0 ∧
    (s2.frames.getD i {}).page.LSN = 0 := by
  obtain ⟨fr, fl, fc, cq, htb, cc, sc, dk⟩ := s
  unfold allocatePage FreeList.pop at h
  split at h
  · exact absurd h (by simp)
  · cases fl with
    | nil => exact absurd h (by simp)
    | cons j rest =>
        simp only [AllocOut.ok.injEq] at h
        obtain ⟨hs2, hji⟩ := h
        subst hji
        subst hs2
        have hjlen : j < fr.length := hlen j (by simp)
        have hset : j < (fr.set j
            { fr.getD j {} with
              header := { (fr.getD j {}).header with nextFree := none } }).length := by
          simpa using hjlen
        rw [list_getD_set_self _ _ _ _ hset]
        refine ⟨rfl, rfl, ?_, rfl, rfl, rfl, rfl⟩
        simp [isWriteLatched]
        decide

/-- Concrete instantiation of allocatePage_ok_spec on a ten-frame pool. -/
theorem allocatePage_ok_spec_witness :
    ∃ s2 i, allocatePage allocDemoState = .ok s2 i ∧
      (s2.frames.getD i {}).header.state = .HOT ∧
      (s2.frames.getD i {}).header.pid = allocDemoState.ssdUsedPagesCounter := by
  have h : allocatePage allocDemoState = .ok allocDemoRes 0 := by decide
  have h2 := allocatePage_ok_spec allocDemoState allocDemoRes 0 (by decide) h
  exact ⟨allocDemoRes, 0, h, h2.1, h2.2.2.2.1⟩

-- ---------------------------------------------------------------------------
-- C5: allocatePage Restart effect
-- ---------------------------------------------------------------------------

/-- C5 counterexample: the claim that every Restart of allocatePage leaves
the state unchanged fails.  At a state whose free counter reads 10 while the
free list is empty, the source increments ssd_used_pages_counter (line 333)
before FreeList::pop signals Restart on the empty list, so the next-pid
counter differs after the failed call. -/
theorem allocatePage_restart_changes_state_cex :
    allocatePage pidLeakState =
      .restart { pidLeakState with ssdUsedPagesCounter := 1 } ∧
    ({ pidLeakState with ssdUsedPagesCounter := 1 } : BMState) ≠ pidLeakState := by
  decide

/-- C5 amended: when allocatePage raises Restart because the free counter is
below 10, the state is exactly as before the call; when it raises Restart
because the pop found the free list empty despite a counter of at least 10,
the free list, its counter, and every frame are unchanged but the next-pid
counter has already been incremented (the pid is leaked). -/
theorem allocatePage_restart_effect (s s2 : BMState)
    (h : allocatePage s = .restart s2) :
    (s.freeCounter < 10 ∧ s2 = s) ∨
    (10 ≤ s.freeCounter ∧ s.freeList = [] ∧
      s2 = { s with ssdUsedPagesCounter := s.ssdUsedPagesCounter + 1 }) := by
  obtain ⟨fr, fl, fc, cq, htb, cc, sc, dk⟩ := s
  unfold allocatePage FreeList.pop at h
  split at h
  · rename_i hlt
    left
    refine ⟨hlt, ?_⟩
    simp only [AllocOut.restart.injEq] at h
    exact h.symm
  · rename_i hge
    cases fl with
    | nil =>
        right
        simp only [AllocOut.restart.injEq] at h
        exact ⟨Nat.not_lt.mp hge, rfl, h.symm⟩
    | cons j rest => exact absurd h (by simp)

/-- Concrete instantiation of allocatePage_restart_effect (the throttling
branch: counter below 10, state unchanged). -/
theorem allocatePage_restart_effect_witness :
    (({} : BMState).freeCounter < 10 ∧ ({} : BMState) = {}) ∨
    (10 ≤ ({} : BMState).freeCounter ∧ ({} : BMState).freeList = [] ∧
      ({} : BMState) =
        { ({} : BMState) with
            ssdUsedPagesCounter := ({} : BMState).ssdUsedPagesCounter + 1 }) :=
  allocatePage_restart_effect {} {} (by decide)

-- ---------------------------------------------------------------------------
-- C2: resolveSwip Case C (cooling)
-- ---------------------------------------------------------------------------

/-- C2: when the page identifier of an unswizzled swip is found in the
partition hash table with CIOFrame state COOLING, resolveSwip returns that
resident frame with state set to HOT, the parent swip swizzled to the frame,
the frame erased from the cooling queue and cooling_count decremented; and
in the logged mutation order the swizzle strictly precedes setting the frame
state to HOT (source lines 437 and 441). -/
theorem resolveSwip_cooling_promotes_to_hot (s : BMState) (pid : Nat)
    (cio : CIOFrame)
    (hht : htLookup s.ht pid = some cio)
    (hcool : cio.state = .COOLING)
    (hlen : cio.fifoItr < s.frames.length) :
    ∃ s2 tr,
      resolveSwip s (.unswizzled pid) =
        .ret s2 (.swizzled cio.fifoItr) cio.fifoItr tr ∧
      (s2.frames.getD cio.fifoItr {}).header.state = .HOT ∧
      s2.coolingQueue = s.coolingQueue.erase cio.fifoItr ∧
      s2.coolingCounter = s.coolingCounter - 1 ∧
      ∃ k1 k2, k1 < k2 ∧
        tr.get? k1 = some (.swizzleSwip cio.fifoItr) ∧
        tr.get? k2 = some (.setStateHot cio.fifoItr) := by
  obtain ⟨cst, fitr, mtx, rc⟩ := cio
  have hc : cst = CIOState.COOLING := hcool
  subst hc
  have hl : fitr < s.frames.length := hlen
  unfold resolveSwip
  simp only [hht]
  refine ⟨_, _, rfl, ?_, rfl, rfl, 0, 2, by decide, rfl, rfl⟩
  rw [list_getD_set_self _ _ _ _ hl]

/-- Concrete instantiation of resolveSwip_cooling_promotes_to_hot. -/
theorem resolveSwip_cooling_promotes_to_hot_witness :
    ∃ s2 tr,
      resolveSwip coolDemoState (.unswizzled 7) = .ret s2 (.swizzled 0) 0 tr ∧
      (s2.frames.getD 0 {}).header.state = .HOT ∧
      s2.coolingQueue = coolDemoState.coolingQueue.erase 0 ∧
      s2.coolingCounter = coolDemoState.coolingCounter - 1 ∧
      ∃ k1 k2, k1 < k2 ∧
        tr.get? k1 = some (.swizzleSwip 0) ∧
        tr.get? k2 = some (.setStateHot 0) :=
  resolveSwip_cooling_promotes_to_hot coolDemoState 7
    { state := .COOLING, fifoItr := 0, mutexLocked := false, readers_counter := 0 }
    (by decide) rfl (by decide)

-- ---------------------------------------------------------------------------
-- C3: resolveSwip Case A (miss)
-- ---------------------------------------------------------------------------

/-- C3: on a hash-table miss with at least 10 frames on the free list,
resolveSwip never returns a frame: it pops a free frame, reads the page from
disk into it, fills the header with the pid, state COLD, is_wb false and
last_written_lsn = page.LSN, appends the frame to the cooling queue with a
COOLING CIOFrame and is_cooled_because_of_reading set, increments
cooling_count, and raises Restart. -/
theorem resolveSwip_miss_cools_and_restarts (s : BMState) (pid i : Nat)
    (rest : List Nat)
    (hmiss : htLookup s.ht pid = none)
    (hcnt : 10 ≤ s.freeCounter)
    (hfl : s.freeList = i :: rest)
    (hlen : i < s.frames.length) :
    ∃ s2,
      resolveSwip s (.unswizzled pid) = .restart s2 (.unswizzled pid) [] ∧
      s2.frames.getD i {} =
        { header := { state := .COLD, pid := pid, lock := 0, isWB := false,
                      isCooledBecauseOfReading := true,
                      lastWrittenLSN := (s.disk.getD pid {}).LSN,
                      nextFree := none },
          page := s.disk.getD pid {} } ∧
      htLookup s2.ht pid =
        some { state := .COOLING, fifoItr := i, mutexLocked := false,
               readers_counter := 1 } ∧
      s2.coolingQueue = s.coolingQueue ++ [i] ∧
      s2.coolingCounter = s.coolingCounter + 1 ∧
      s2.freeList = rest ∧
      s2.freeCounter = s.freeCounter - 1 := by
  obtain ⟨fr, fl, fc, cq, htb, cc, sc, dk⟩ := s
  have hfl2 : fl = i :: rest := hfl
  subst hfl2
  have hc2 : ¬ fc < 10 := Nat.not_lt.mpr hcnt
  have hl : i < fr.length := hlen
  have hset : i < (fr.set i
      { fr.getD i {} with
        header := { (fr.getD i {}).header with nextFree := none } }).length := by
    simpa using hl
  unfold resolveSwip FreeList.pop
  simp only [hmiss, hc2, if_false, ite_false]
  refine ⟨_, rfl, ?_, ?_, rfl, rfl, rfl, rfl⟩
  · rw [list_getD_set_self _ _ _ _ hset, list_getD_set_self _ _ _ _ hl]
  · simp [htLookup]

/-- Concrete instantiation of resolveSwip_miss_cools_and_restarts. -/
theorem resolveSwip_miss_cools_and_restarts_witness :
    ∃ s2,
      resolveSwip missDemoState (.unswizzled 1) =
        .restart s2 (.unswizzled 1) [] ∧
      s2.frames.getD 0 {} =
        { header := { state := .COLD, pid := 1, lock := 0, isWB := false,
                      isCooledBecauseOfReading := true,
                      lastWrittenLSN := (missDemoState.disk.getD 1 {}).LSN,
                      nextFree := none },
          page := missDemoState.disk.getD 1 {} } ∧
      htLookup s2.ht 1 =
        some { state := .COOLING, fifoItr := 0, mutexLocked := false,
               readers_counter := 1 } ∧
      s2.coolingQueue = missDemoState.coolingQueue ++ [0] ∧
      s2.coolingCounter = missDemoState.coolingCounter + 1 ∧
      s2.freeList = [] ∧
      s2.freeCounter = missDemoState.freeCounter - 1 :=
  resolveSwip_miss_cools_and_restarts missDemoState 1 0 []
    (by decide) (by decide) rfl (by decide)

-- ---------------------------------------------------------------------------
-- C8: resolveSwip idempotence
-- ---------------------------------------------------------------------------

/-- Every returning resolveSwip call leaves the swip swizzled to the frame
it returns (fast path, and Case C after line 437). -/
theorem resolveSwip_ret_swizzled (s s2 : BMState) (w w2 : Swip) (bf : Nat)
    (tr : List Event) (h : resolveSwip s w = .ret s2 w2 bf tr) :
    w2 = .swizzled bf := by
  unfold resolveSwip at h
  cases w with
  | swizzled b =>
      simp only [ResolveOut.ret.injEq] at h
      obtain ⟨-, hw, hb, -⟩ := h
      rw [← hw, hb]
  | unswizzled pid =>
      cases hh : htLookup s.ht pid with
      | none =>
          simp only [hh] at h
          split at h
          · simp at h
          · split at h
            · simp at h
            · simp at h
      | some cio =>
          obtain ⟨cst, fitr, mtx, rc⟩ := cio
          simp only [hh] at h
          cases cst with
          | READING => by_cases hrc : rc = 0 <;> simp [hrc] at h
          | COOLING =>
              simp only [ResolveOut.ret.injEq] at h
              obtain ⟨-, hw, hb, -⟩ := h
              rw [← hw, hb]

/-- C8: idempotence of resolveSwip.  If a call returns the frame bf (in the
sequential model every recheck between the two calls succeeds), calling it
again on the resulting state and swip returns the same frame pointer bf and
changes nothing. -/
theorem resolveSwip_idempotent (s s2 : BMState) (w w2 : Swip) (bf : Nat)
    (tr : List Event) (h : resolveSwip s w = .ret s2 w2 bf tr) :
    resolveSwip s2 w2 = .ret s2 w2 bf [] := by
  have hw := resolveSwip_ret_swizzled s s2 w w2 bf tr h
  subst hw
  rfl

/-- Concrete instantiation of resolveSwip_idempotent: the first call promotes
the cooling frame of coolDemoState, the second call returns the same frame. -/
theorem resolveSwip_idempotent_witness :
    resolveSwip coolDemoRes (.swizzled 0) =
      .ret coolDemoRes (.swizzled 0) 0 [] :=
  resolveSwip_idempotent coolDemoState coolDemoRes (.unswizzled 7) (.swizzled 0)
    0 [.swizzleSwip 0, .eraseCooling 0, .setStateHot 0] (by decide)

-- ---------------------------------------------------------------------------
-- C7: readPageSync and failed pread
-- ---------------------------------------------------------------------------

/-- C7: the pread loop of readPageSync (BufferManager.cpp lines 469-473)
does not abort on a failed pread.  With PAGE_SIZE = 4096 and pread first
returning -1 (failure), the loop adds 1 to bytes_left and keeps going: it
issues a second pread, now asking for 4097 bytes (one more than the page
buffer holds), and returns normally after that read, against the
Fatal-abort rule of spec section 7. -/
theorem readPageSync_continues_after_failed_pread :
    preadLoop [-1, 4097] 4096 = some [4096, 4097] ∧ (4096 : Int) < 4097 := by
  decide

-- ---------------------------------------------------------------------------
-- C1: no dirty frame is pushed onto the free list
-- ---------------------------------------------------------------------------

theorem phase2Entry_trace_sound (p : PP) (i : Nat)
    (hp : ∀ e ∈ p.tr, cleanReclaimEvent e) :
    ∀ e ∈ (phase2Entry p i).tr, cleanReclaimEvent e := by
  intro e he
  simp only [phase2Entry] at he
  by_cases h1 : (!(p.bm.frames.getD i {}).header.isWB &&
      !(p.bm.frames.getD i {}).header.isCooledBecauseOfReading) = true
  · rw [if_pos h1] at he
    by_cases h2 : (!(p.bm.frames.getD i {}).isDirty) = true
    · rw [if_pos h2] at he
      simp only [List.mem_append, List.mem_singleton] at he
      rcases he with he | he
      · exact hp e he
      · subst he
        have h3 : (p.bm.frames.getD i {}).header.lastWrittenLSN =
            (p.bm.frames.getD i {}).page.LSN := by
          simpa [BufferFrame.isDirty] using h2
        simpa [cleanReclaimEvent] using h3
    · rw [if_neg h2] at he
      cases hadd : p.awb.add i (p.bm.frames.getD i {}).page with
      | some awb2 =>
          rw [hadd] at he
          simp only [List.mem_append, List.mem_singleton] at he
          rcases he with he | he
          · exact hp e he
          · subst he; trivial
      | none =>
          rw [hadd] at he
          exact hp e he
  · rw [if_neg h1] at he
    exact hp e he

theorem phase2Scan_trace_sound (q : List Nat) :
    ∀ (p : PP) (b : Nat), (∀ e ∈ p.tr, cleanReclaimEvent e) →
      ∀ e ∈ (phase2Scan p b q).tr, cleanReclaimEvent e := by
  induction q with
  | nil => intro p b hp; cases b <;> exact hp
  | cons i rest ih =>
      intro p b hp
      cases b with
      | zero => exact hp
      | succ b2 =>
          apply ih
          apply phase2Entry_trace_sound
          intro e he
          simp only [List.mem_append, List.mem_singleton] at he
          rcases he with he | he
          · exact hp e he
          · subst he; trivial

theorem phase3Write_trace_sound (p : PP) (i lsn : Nat)
    (hp : ∀ e ∈ p.tr, cleanReclaimEvent e) :
    ∀ e ∈ (phase3Write p i lsn).tr, cleanReclaimEvent e := by
  intro e he
  simp only [phase3Write] at he
  by_cases hcold : (p.bm.frames.getD i {}).header.state = FrameState.COLD
  · simp only [hcold, if_pos] at he
    simp only [List.append_assoc, List.mem_append, List.mem_singleton] at he
    rcases he with he | he | he
    · exact hp e he
    · subst he; trivial
    · subst he; simp [cleanReclaimEvent]
  · rw [if_neg hcold] at he
    simp only [List.mem_append, List.mem_singleton] at he
    rcases he with he | he
    · exact hp e he
    · subst he; trivial

theorem phase3Apply_trace_sound (writes : List (Nat × Nat)) :
    ∀ (p : PP), (∀ e ∈ p.tr, cleanReclaimEvent e) →
      ∀ e ∈ (phase3Apply p writes).tr, cleanReclaimEvent e := by
  induction writes with
  | nil => intro p hp; exact hp
  | cons w rest ih =>
      intro p hp
      obtain ⟨i, lsn⟩ := w
      exact ih _ (phase3Write_trace_sound p i lsn hp)

/-- C1: a dirty frame is never pushed onto the free list.  The evictedP2 and
evictedP3 events are emitted exactly at the two dram_free_list.push sites of
pageProviderThread (lines 201 and 247) with the frame value at the eviction
decision: every Phase-2 reclaim carries a frame with
last_written_lsn = page.LSN (dirty frames take the AsyncWriteBuffer branch
instead), and every Phase-3 reclaim happens only after the completed flush
LSN has been applied as last_written_lsn. -/
theorem no_dirty_frame_pushed_to_freelist :
    (∀ (bm : BMState) (awb : AsyncWriteBuffer) (limit i : Nat)
        (bf : BufferFrame),
        Event.evictedP2 i bf ∈ (pageProviderPhase2 ⟨bm, awb, []⟩ limit).tr →
        bf.header.lastWrittenLSN = bf.page.LSN) ∧
    (∀ (bm : BMState) (awb : AsyncWriteBuffer) (writes : List (Nat × Nat))
        (i : Nat) (bf : BufferFrame) (lsn : Nat),
        Event.evictedP3 i bf lsn ∈ (phase3Apply ⟨bm, awb, []⟩ writes).tr →
        bf.header.lastWrittenLSN = lsn) := by
  constructor
  · intro bm awb limit i bf hmem
    have hall : ∀ e ∈ (pageProviderPhase2 ⟨bm, awb, []⟩ limit).tr,
        cleanReclaimEvent e := by
      unfold pageProviderPhase2
      split
      · exact phase2Scan_trace_sound _ _ _ (by intro e he; simp at he)
      · intro e he; simp at he
    exact hall _ hmem
  · intro bm awb writes i bf lsn hmem
    have hall : ∀ e ∈ (phase3Apply ⟨bm, awb, []⟩ writes).tr,
        cleanReclaimEvent e :=
      phase3Apply_trace_sound writes _ (by intro e he; simp at he)
    exact hall _ hmem

/-- Concrete instantiation of no_dirty_frame_pushed_to_freelist: a Phase-2
eviction of the clean cooling frame of coolDemoState, and a Phase-3 eviction
after a flush completion with LSN 9 on wbDemoState. -/
theorem no_dirty_frame_pushed_to_freelist_witness :
    coolDemoFrame.header.lastWrittenLSN = coolDemoFrame.page.LSN ∧
    wbDemoFrameApplied.header.lastWrittenLSN = 9 :=
  ⟨no_dirty_frame_pushed_to_freelist.1 coolDemoState ⟨2, []⟩ 1 0 coolDemoFrame
      (by decide),
   no_dirty_frame_pushed_to_freelist.2 wbDemoState ⟨2, []⟩ [(0, 9)] 0
      wbDemoFrameApplied 9 (by decide)⟩

-- ---------------------------------------------------------------------------
-- C6: Phase 2 matches its specification
-- ---------------------------------------------------------------------------

theorem phase2Entry_eq_specStep (bm : BMState) (awb : AsyncWriteBuffer)
    (t : List Event) (i : Nat) :
    ((phase2Entry ⟨bm, awb, t⟩ i).bm, (phase2Entry ⟨bm, awb, t⟩ i).awb) =
      phase2SpecStep bm awb i := by
  simp only [phase2Entry, phase2SpecStep]
  cases hwb : (bm.frames.getD i {}).header.isWB with
  | true => simp [hwb]
  | false =>
      cases hcl : (bm.frames.getD i {}).header.isCooledBecauseOfReading with
      | true => simp [hwb, hcl]
      | false =>
          simp only [hwb, hcl, Bool.not_false, Bool.and_self, if_true,
            Bool.or_self, Bool.false_or, if_false, BufferFrame.isDirty,
            bne, Bool.not_not]
          cases hclean2 : ((bm.frames.getD i {}).header.lastWrittenLSN ==
              (bm.frames.getD i {}).page.LSN) with
          | true => rfl
          | false =>
              cases hadd : awb.add i (bm.frames.getD i {}).page with
              | some awb2 => rfl
              | none => rfl

theorem phase2Scan_eq_specScan (q : List Nat) :
    ∀ (b : Nat) (bm : BMState) (awb : AsyncWriteBuffer) (t : List Event),
      ((phase2Scan ⟨bm, awb, t⟩ b q).bm, (phase2Scan ⟨bm, awb, t⟩ b q).awb) =
        phase2SpecScan (bm, awb) b q := by
  induction q with
  | nil => intro b bm awb t; cases b <;> rfl
  | cons i rest ih =>
      intro b bm awb t
      cases b with
      | zero => rfl
      | succ b2 =>
          have hstep := phase2Entry_eq_specStep bm awb (t ++ [.scannedP2 i]) i
          rcases hE : phase2Entry ⟨bm, awb, t ++ [.scannedP2 i]⟩ i
            with ⟨bm2, awb2, t2⟩
          rw [hE] at hstep
          have hL : phase2Scan ⟨bm, awb, t⟩ (b2 + 1) (i :: rest) =
              phase2Scan ⟨bm2, awb2, t2⟩ b2 rest := by
            show phase2Scan (phase2Entry ⟨bm, awb, t ++ [.scannedP2 i]⟩ i)
                b2 rest = phase2Scan ⟨bm2, awb2, t2⟩ b2 rest
            rw [hE]
          have hR : phase2SpecScan (bm, awb) (b2 + 1) (i :: rest) =
              phase2SpecScan (bm2, awb2) b2 rest := by
            show phase2SpecScan (phase2SpecStep bm awb i) b2 rest =
              phase2SpecScan (bm2, awb2) b2 rest
            rw [← hstep]
          rw [hL, hR]
          exact ih b2 bm2 awb2 t2

/-- C6: Phase 2 of the page provider does exactly what spec section 4.5.2
says.  First conjunct: the scan examines at most its budget of frames from
the front of the cooling queue (the scan result only depends on the first
budget entries).  Second conjunct: the scan with budget
free_pages_limit - free_count, skipping frames with is_wb or
is_cooled_because_of_reading set, reclaiming clean frames (CIOFrame and
queue entry removed, header reinitialized, frame pushed, cooling count
decremented) and queueing dirty ones into the AsyncWriteBuffer unless
saturated, computes the same buffer-manager and write-buffer state as the
step-for-step transcription of the spec text. -/
theorem phase2_matches_spec :
    (∀ (p : PP) (b : Nat) (q : List Nat),
        phase2Scan p b q = phase2Scan p b (q.take b)) ∧
    (∀ (bm : BMState) (awb : AsyncWriteBuffer) (limit : Nat),
        ((pageProviderPhase2 ⟨bm, awb, []⟩ limit).bm,
         (pageProviderPhase2 ⟨bm, awb, []⟩ limit).awb) =
          pageProviderPhase2Spec bm awb limit) := by
  constructor
  · intro p b q
    induction q generalizing p b with
    | nil => cases b <;> rfl
    | cons i rest ih =>
        cases b with
        | zero => rfl
        | succ b2 =>
            show phase2Scan _ b2 rest = phase2Scan _ b2 (rest.take b2)
            exact ih _ b2
  · intro bm awb limit
    unfold pageProviderPhase2 pageProviderPhase2Spec
    split
    · exact phase2Scan_eq_specScan _ _ _ _ _
    · rename_i hge
      have h0 : limit - bm.freeCounter = 0 :=
        Nat.sub_eq_zero_of_le (Nat.not_lt.mp hge)
      rw [h0]
      rfl

-- ---------------------------------------------------------------------------
-- C10: Phase-2 eviction touches only the header
-- ---------------------------------------------------------------------------

theorem phase2Entry_getD_ne (p : PP) (i j : Nat) (hij : i ≠ j) :
    (phase2Entry p i).bm.frames.getD j {} = p.bm.frames.getD j {} := by
  simp only [phase2Entry, FreeList.push]
  cases hwb : (p.bm.frames.getD i {}).header.isWB with
  | true => simp [hwb]
  | false =>
      cases hcl : (p.bm.frames.getD i {}).header.isCooledBecauseOfReading with
      | true => simp [hwb, hcl]
      | false =>
          cases hd : (p.bm.frames.getD i {}).isDirty with
          | false => simp [hwb, hcl, hd, List.getElem?_set_ne hij]
          | true =>
              cases hadd : p.awb.add i (p.bm.frames.getD i {}).page with
              | some awb2 =>
                  simp [hwb, hcl, hd, hadd, List.getElem?_set_ne hij]
              | none => simp [hwb, hcl, hd, hadd]

theorem phase2Entry_frames_length (p : PP) (i : Nat) :
    (phase2Entry p i).bm.frames.length = p.bm.frames.length := by
  simp only [phase2Entry, FreeList.push]
  cases hwb : (p.bm.frames.getD i {}).header.isWB with
  | true => simp [hwb]
  | false =>
      cases hcl : (p.bm.frames.getD i {}).header.isCooledBecauseOfReading with
      | true => simp [hwb, hcl]
      | false =>
          cases hd : (p.bm.frames.getD i {}).isDirty with
          | false => simp [hwb, hcl, hd]
          | true =>
              cases hadd : p.awb.add i (p.bm.frames.getD i {}).page with
              | some awb2 => simp [hwb, hcl, hd, hadd]
              | none => simp [hwb, hcl, hd, hadd]

theorem phase2Scan_getD_not_mem (q : List Nat) :
    ∀ (p : PP) (b i : Nat), i ∉ q →
      (phase2Scan p b q).bm.frames.getD i {} = p.bm.frames.getD i {} := by
  induction q with
  | nil => intro p b i _; cases b <;> rfl
  | cons j rest ih =>
      intro p b i h
      cases b with
      | zero => rfl
      | succ b2 =>
          have hji : j ≠ i := fun hh => h (by simp [hh])
          have hrest : i ∉ rest := fun hh => h (by simp [hh])
          show (phase2Scan (phase2Entry { p with tr := p.tr ++ [Event.scannedP2 j] }
              j) b2 rest).bm.frames.getD i {} = p.bm.frames.getD i {}
          rw [ih _ b2 i hrest]
          exact phase2Entry_getD_ne _ j i hji

/-- The Phase-2 effect on a clean, unflagged frame scanned within the
budget: only the header is reinitialized (up to the free-list threading of
next_free_bf), the page payload is untouched. -/
theorem phase2Scan_evict_effect (q1 : List Nat) :
    ∀ (p : PP) (b i : Nat) (q2 : List Nat),
      (q1 ++ i :: q2).Nodup →
      q1.length < b →
      i < p.bm.frames.length →
      (p.bm.frames.getD i {}).header.isWB = false →
      (p.bm.frames.getD i {}).header.isCooledBecauseOfReading = false →
      (p.bm.frames.getD i {}).header.lastWrittenLSN =
        (p.bm.frames.getD i {}).page.LSN →
      ((phase2Scan p b (q1 ++ i :: q2)).bm.frames.getD i {}).page =
          (p.bm.frames.getD i {}).page ∧
      ∃ nf, ((phase2Scan p b (q1 ++ i :: q2)).bm.frames.getD i {}).header =
          { Header.init with nextFree := nf } := by
  induction q1 with
  | nil =>
      intro p b i q2 hnd hb hlen hwb hcl hclean
      cases b with
      | zero => exact absurd hb (by simp)
      | succ b2 =>
          have hnotmem : i ∉ q2 := by
            have := List.nodup_cons.mp (by simpa using hnd)
            exact this.1
          show ((phase2Scan (phase2Entry
                { p with tr := p.tr ++ [Event.scannedP2 i] } i)
                b2 q2).bm.frames.getD i {}).page = _ ∧ ∃ nf,
              ((phase2Scan (phase2Entry
                { p with tr := p.tr ++ [Event.scannedP2 i] } i)
                b2 q2).bm.frames.getD i {}).header =
                { Header.init with nextFree := nf }
          rw [phase2Scan_getD_not_mem q2 _ b2 i hnotmem]
          have hdirty : (p.bm.frames.getD i {}).isDirty = false := by
            simp only [BufferFrame.isDirty, hclean, bne_self_eq_false]
          have hentry : (phase2Entry { p with tr := p.tr ++ [Event.scannedP2 i] }
              i).bm.frames.getD i {} =
              { header := { Header.init with nextFree := p.bm.freeList.head? },
                page := (p.bm.frames.getD i {}).page } := by
            simp only [phase2Entry, FreeList.push, hwb, hcl, hdirty,
              Bool.not_false, Bool.and_self, if_true]
            rw [list_getD_set_self _ _ _ _ (by simpa using hlen),
              list_getD_set_self _ _ _ _ (by simpa using hlen)]
          rw [hentry]
          exact ⟨rfl, p.bm.freeList.head?, rfl⟩
  | cons j rest ih =>
      intro p b i q2 hnd hb hlen hwb hcl hclean
      cases b with
      | zero => exact absurd hb (by simp)
      | succ b2 =>
          have hnd2 : (rest ++ i :: q2).Nodup := (List.nodup_cons.mp hnd).2
          have hji : j ≠ i := by
            intro hh
            exact (List.nodup_cons.mp hnd).1 (by simp [hh])
          have hb2 : rest.length < b2 := by
            have : rest.length + 1 < b2 + 1 := by simpa using hb
            omega
          have hpres : (phase2Entry { p with tr := p.tr ++ [Event.scannedP2 j] }
              j).bm.frames.getD i {} = p.bm.frames.getD i {} :=
            phase2Entry_getD_ne _ j i hji
          have hlen2 : i < (phase2Entry { p with tr := p.tr ++ [Event.scannedP2 j] }
              j).bm.frames.length := by
            rw [phase2Entry_frames_length]
            exact hlen
          have hres := ih (phase2Entry { p with tr := p.tr ++ [Event.scannedP2 j] }
              j) b2 i q2 hnd2 hb2 hlen2
            (by rw [hpres]; exact hwb) (by rw [hpres]; exact hcl)
            (by rw [hpres]; exact hclean)
          rw [hpres] at hres
          exact hres

/-- The Phase-3 effect on a completed flush whose frame is still COLD: the
whole frame, payload included, is reinitialized before the push. -/
theorem phase3Write_evict_effect (p : PP) (i lsn : Nat)
    (hlen : i < p.bm.frames.length)
    (hcold : (p.bm.frames.getD i {}).header.state = FrameState.COLD) :
    (phase3Write p i lsn).bm.frames.getD i {} =
      { header := { Header.init with nextFree := p.bm.freeList.head? },
        page := {} } := by
  simp only [phase3Write, FreeList.push]
  rw [if_pos (by simpa using hcold)]
  rw [list_getD_set_self _ _ _ _ (by simpa using hlen),
    list_getD_set_self _ _ _ _ (by simpa using hlen)]
  rfl

/-- C10: a clean cold frame evicted by Phase 2 keeps its page payload
byte-for-byte: only the header is reinitialized (placement-new of the
header at line 200, plus the free-list next pointer threaded by push); by
contrast Phase 3 placement-news the whole frame (line 246), page payload
included. -/
theorem phase2_evicts_header_only_preserving_payload :
    (∀ (q1 : List Nat) (p : PP) (b i : Nat) (q2 : List Nat),
        (q1 ++ i :: q2).Nodup →
        q1.length < b →
        i < p.bm.frames.length →
        (p.bm.frames.getD i {}).header.isWB = false →
        (p.bm.frames.getD i {}).header.isCooledBecauseOfReading = false →
        (p.bm.frames.getD i {}).header.lastWrittenLSN =
          (p.bm.frames.getD i {}).page.LSN →
        ((phase2Scan p b (q1 ++ i :: q2)).bm.frames.getD i {}).page =
            (p.bm.frames.getD i {}).page ∧
        ∃ nf, ((phase2Scan p b (q1 ++ i :: q2)).bm.frames.getD i {}).header =
            { Header.init with nextFree := nf }) ∧
    (∀ (p : PP) (i lsn : Nat),
        i < p.bm.frames.length →
        (p.bm.frames.getD i {}).header.state = FrameState.COLD →
        (phase3Write p i lsn).bm.frames.getD i {} =
          { header := { Header.init with nextFree := p.bm.freeList.head? },
            page := {} }) :=
  ⟨phase2Scan_evict_effect, phase3Write_evict_effect⟩

/-- Concrete instantiation of phase2_evicts_header_only_preserving_payload:
the clean cooling frame of coolDemoState keeps its payload through a Phase-2
eviction, while the Phase-3 eviction of the flushed frame of wbDemoState
resets the whole frame. -/
theorem phase2_evicts_header_only_preserving_payload_witness :
    (((phase2Scan ⟨coolDemoState, ⟨2, []⟩, []⟩ 1
          ([] ++ 0 :: [])).bm.frames.getD 0 {}).page =
      (coolDemoState.frames.getD 0 {}).page ∧
     ∃ nf, ((phase2Scan ⟨coolDemoState, ⟨2, []⟩, []⟩ 1
          ([] ++ 0 :: [])).bm.frames.getD 0 {}).header =
        { Header.init with nextFree := nf }) ∧
    (phase3Write ⟨wbDemoState, ⟨2, []⟩, []⟩ 0 9).bm.frames.getD 0 {} =
      { header := { Header.init with nextFree := wbDemoState.freeList.head? },
        page := {} } :=
  ⟨phase2_evicts_header_only_preserving_payload.1 [] ⟨coolDemoState, ⟨2, []⟩, []⟩
      1 0 [] (by decide) (by decide) (by decide) (by decide) (by decide)
      (by decide),
   phase2_evicts_header_only_preserving_payload.2 ⟨wbDemoState, ⟨2, []⟩, []⟩
      0 9 (by decide) (by decide)⟩

end LeanStore
